import Mathlib

/-!
Verification model of the `s3-migrate` tool (package `lib`, concurrent
revision of `migrateObjects`, plus `lib/s3.go`).

The embedding is a shallow one: the per-record worker body of
`migrateObjects` becomes a pure function from a record environment (the
store contents plus per-record fault injections) to an outcome together
with the trace of store calls it issues; the feeder loop becomes a fold
over a list of cursor items; the run-level control flow of
`MigrateStorage`/`migrateObjects` becomes a function producing a result
and an ordered event trace.  Timing (sleeps, token refill pacing) and the
progress-bar side goroutine are outside the model; the dry-run
progress-loop arithmetic of `CopyObject` is modelled separately as
integer iteration.
-/

namespace S3Migrate

/-- Terminal classification of one dequeued record, mirroring the four
counters `copiedCount, skippedCount, alreadyExistsCount, errorCount` of
`migrateObjects`. -/
inductive Outcome
  | copied
  | skipped
  | alreadyPresent
  | errored
deriving DecidableEq, Repr

/-- A store call (or rate-limiter acquisition) issued while processing one
record.  `statSrc`/`statDst` are `StatObject` existence/size checks
(`ObjectExist`, and the size stat inside `CopyObject`); `getSrc`/`putDst`
are the streamed read/write of `CopyObjectOld` (never issued on the
concurrent path, kept so that "no read/write call" is expressible);
`copyDst` is the server-side `CopyObject` into the destination bucket. -/
inductive Event
  | acquire
  | acquireFail
  | statSrc (key : String)
  | statDst (key : String)
  | getSrc (key : String)
  | putDst (key : String)
  | copyDst (key : String)
deriving DecidableEq, Repr

/-- `true` exactly for the calls that mutate the destination bucket
(streamed write or server-side copy). -/
def Event.isMutation : Event → Bool
  | .putDst _ => true
  | .copyDst _ => true
  | _ => false

/-- `true` exactly for a streamed content read from the source bucket. -/
def Event.isContentRead : Event → Bool
  | .getSrc _ => true
  | _ => false

/-- Number of successful rate-limiter token acquisitions in a trace. -/
def countAcquires (t : List Event) : Nat :=
  t.countP fun e => match e with
    | .acquire => true
    | _ => false

/-- Environment of one decoded record: its storage key (`doc.StorageID`)
and the injected failure pattern for each fallible step the worker body
performs on it. -/
structure RecordEnv where
  key : String
  limiterFails : Bool
  srcFault : Bool
  dstFault : Bool
  copyStatFault : Bool
  copyFault : Bool
deriving DecidableEq, Repr

/-- Model of `S3Client.ObjectExist` (lib/s3.go): a `StatObject` whose
"key does not exist" answer is turned into `ok false`; any other failure
(the injected `fault`) is an error; otherwise the key's presence in the
bucket decides. -/
def objectExist (store : List String) (fault : Bool) (id : String) :
    Except Unit Bool :=
  if fault then .error ()
  else if id ∈ store then .ok true
  else .ok false

/-- Model of `S3Client.CopyObject` (lib/s3.go) as called from the worker,
i.e. with `dryRun = false` (the worker short-circuits before the call when
`params.DryRun` is set): a `StatObject` on the source for the size, then a
server-side copy into the destination; either step may fail. -/
def copyObject (key : String) (r : RecordEnv) :
    Except Unit Unit × List Event :=
  if r.copyStatFault then (.error (), [.statSrc key])
  else if r.copyFault then (.error (), [.statSrc key, .copyDst key])
  else (.ok (), [.statSrc key, .copyDst key])

/-- The worker body of `migrateObjects` (part_003 lines 234-277) after the
rate-limiter gate: source existence check, destination existence check,
dry-run short-circuit, server-side copy; each `continue` branch becomes a
terminal outcome. -/
def processRecordNoLimit (dryRun : Bool) (src dst : List String)
    (r : RecordEnv) : Outcome × List Event :=
  match objectExist src r.srcFault r.key with
  | .error _ => (.errored, [.statSrc r.key])
  | .ok false => (.skipped, [.statSrc r.key])
  | .ok true =>
    match objectExist dst r.dstFault r.key with
    | .error _ => (.errored, [.statSrc r.key, .statDst r.key])
    | .ok true => (.alreadyPresent, [.statSrc r.key, .statDst r.key])
    | .ok false =>
      if dryRun then (.copied, [.statSrc r.key, .statDst r.key])
      else
        match copyObject r.key r with
        | (.error _, t) => (.errored, .statSrc r.key :: .statDst r.key :: t)
        | (.ok _, t) => (.copied, .statSrc r.key :: .statDst r.key :: t)

/-- The full worker body (part_003 lines 224-278): when a limiter is
configured (`limiter != nil`) one token is acquired first; a failed
`limiter.Wait` counts the record as errored without touching the stores. -/
def processRecord (limiterPresent dryRun : Bool) (src dst : List String)
    (r : RecordEnv) : Outcome × List Event :=
  if limiterPresent then
    if r.limiterFails then (.errored, [.acquireFail])
    else
      let p := processRecordNoLimit dryRun src dst r
      (p.1, .acquire :: p.2)
  else processRecordNoLimit dryRun src dst r

/-- The four report counters of `migrateObjects`. -/
structure Stats where
  copied : Nat
  skipped : Nat
  alreadyInDestination : Nat
  errors : Nat
deriving DecidableEq, Repr

/-- The `+ 1` the worker performs on exactly one counter when it
finalizes a record. -/
def Stats.bump (s : Stats) : Outcome → Stats
  | .copied => { s with copied := s.copied + 1 }
  | .skipped => { s with skipped := s.skipped + 1 }
  | .alreadyPresent =>
      { s with alreadyInDestination := s.alreadyInDestination + 1 }
  | .errored => { s with errors := s.errors + 1 }

/-- Sum of the four report counters. -/
def Stats.total (s : Stats) : Nat :=
  s.copied + s.skipped + s.alreadyInDestination + s.errors

/-- One item yielded by the cursor in the feeder loop (part_003 lines
289-297): either `cursor.Decode` fails, or it yields a decoded record. -/
inductive CursorItem
  | decodeFail
  | ok (r : RecordEnv)
deriving DecidableEq, Repr

/-- The feeder loop fused with the (sequential-effect view of the) worker
pool: a decode failure increments `errorCount` in the feeder itself and the
record is never enqueued; a decoded record is enqueued, dequeued by some
worker, and finalized into exactly one counter.  Returns the final counters
and the number of records dequeued from the channel. -/
def processItems (limiterPresent dryRun : Bool) (src dst : List String) :
    List CursorItem → Stats → Nat → Stats × Nat
  | [], s, dequeued => (s, dequeued)
  | .decodeFail :: rest, s, dequeued =>
      processItems limiterPresent dryRun src dst rest
        { s with errors := s.errors + 1 } dequeued
  | .ok r :: rest, s, dequeued =>
      processItems limiterPresent dryRun src dst rest
        (s.bump (processRecord limiterPresent dryRun src dst r).1)
        (dequeued + 1)

/-- Number of cursor items whose decode fails. -/
def countDecodeFails : List CursorItem → Nat
  | [] => 0
  | .decodeFail :: rest => countDecodeFails rest + 1
  | .ok _ :: rest => countDecodeFails rest

/-- Number of cursor items that decode successfully (= records enqueued,
and, since the queue is closed and fully drained before `wg.Wait`
returns, = records dequeued). -/
def countDecoded : List CursorItem → Nat
  | [] => 0
  | .decodeFail :: rest => countDecoded rest
  | .ok _ :: rest => countDecoded rest + 1

theorem Stats.total_bump (s : Stats) (o : Outcome) :
    (s.bump o).total = s.total + 1 := by
  cases o <;> simp [Stats.bump, Stats.total] <;> omega

theorem processItems_total (limiterPresent dryRun : Bool)
    (src dst : List String) :
    ∀ (items : List CursorItem) (s : Stats) (d : Nat),
      (processItems limiterPresent dryRun src dst items s d).1.total
        = s.total + countDecodeFails items + countDecoded items := by
  intro items
  induction items with
  | nil => intro s d; simp [processItems, countDecodeFails, countDecoded]
  | cons hd tl ih =>
    intro s d
    cases hd with
    | decodeFail =>
      simp [processItems, countDecodeFails, countDecoded, ih]
      simp [Stats.total]
      omega
    | ok r =>
      simp [processItems, countDecodeFails, countDecoded, ih,
        Stats.total_bump]
      omega

theorem processItems_dequeued (limiterPresent dryRun : Bool)
    (src dst : List String) :
    ∀ (items : List CursorItem) (s : Stats) (d : Nat),
      (processItems limiterPresent dryRun src dst items s d).2
        = d + countDecoded items := by
  intro items
  induction items with
  | nil => intro s d; simp [processItems, countDecoded]
  | cons hd tl ih =>
    intro s d
    cases hd with
    | decodeFail => simp [processItems, countDecoded, ih]
    | ok r => simp [processItems, countDecoded, ih]; omega

/-- Non-atomic counter increments: each worker's `count++` on a shared
`int64` is a read of the shared cell into a register followed by a write
of `register + 1`.  `reg1`/`reg2` are the registers of two workers
executing such an increment concurrently. -/
structure RaceState where
  ctr : Nat
  reg1 : Nat
  reg2 : Nat
deriving DecidableEq, Repr

/-- One scheduler step: worker `i` performs the read half or the write
half of its `count++`. -/
inductive RaceStep
  | read1
  | write1
  | read2
  | write2
deriving DecidableEq, Repr

/-- Effect of one scheduler step on the shared counter and the two
registers. -/
def raceStep (s : RaceState) : RaceStep → RaceState
  | .read1 => { s with reg1 := s.ctr }
  | .write1 => { s with ctr := s.reg1 + 1 }
  | .read2 => { s with reg2 := s.ctr }
  | .write2 => { s with ctr := s.reg2 + 1 }

/-- Run a schedule of interleaved increment halves. -/
def runRace (sched : List RaceStep) (s : RaceState) : RaceState :=
  sched.foldl raceStep s

/-- Run-level events of `MigrateStorage`/`migrateObjects`, in program
order: a worker goroutine launched (`go func()` in the loop at part_003
line 220), a document that failed `cursor.Decode`, a record sent to and
dequeued from `objectChan`. -/
inductive RunEvent
  | workerStarted
  | decodeFailed
  | recordDequeued
deriving DecidableEq, Repr

/-- Result of one invocation: a fatal error returned to the caller, the
early `count <= 0` exit, or a completed run with its final counters. -/
inductive RunResult
  | fatal
  | zeroObjects
  | completed (finalStats : Stats)
deriving DecidableEq, Repr

/-- Inputs of one run: outcome of `CountDocuments`, outcome of the
`Find` cursor open, the worker-pool size (`params.Concurrency` after
defaulting), the limiter/dry-run configuration, the two bucket contents
and the cursor items. -/
structure RunInputs where
  countFails : Bool
  countValue : Int
  cursorOpenFails : Bool
  concurrency : Nat
  limiterPresent : Bool
  dryRun : Bool
  srcStore : List String
  dstStore : List String
  items : List CursorItem
deriving DecidableEq, Repr

/-- Feeder-loop portion of the run event trace. -/
def cursorEvents (items : List CursorItem) : List RunEvent :=
  items.map fun it =>
    match it with
    | .decodeFail => .decodeFailed
    | .ok _ => .recordDequeued

/-- `migrateObjects` (part_003 lines 199-338) at run level: the N worker
goroutines are launched first (lines 220-280), and only then is the
cursor opened (`Collection.Find`, line 283); a cursor-open failure
returns the error at that point, after the workers are already running
and before any record is dequeued. -/
def migrateObjectsRun (inp : RunInputs) : RunResult × List RunEvent :=
  let workerEvents := List.replicate inp.concurrency RunEvent.workerStarted
  if inp.cursorOpenFails then (.fatal, workerEvents)
  else
    (.completed (processItems inp.limiterPresent inp.dryRun inp.srcStore
        inp.dstStore inp.items ⟨0, 0, 0, 0⟩ 0).1,
     workerEvents ++ cursorEvents inp.items)

/-- `MigrateStorage` at run level: `CountDocuments` runs before
`migrateObjects` is entered, so a count failure aborts before any worker
exists; a non-positive count exits early; otherwise `migrateObjectsRun`
runs. -/
def migrateStorageRun (inp : RunInputs) : RunResult × List RunEvent :=
  if inp.countFails then (.fatal, [])
  else if inp.countValue ≤ 0 then (.zeroObjects, [])
  else migrateObjectsRun inp

/-- Model of the limiter built in `MigrateStorage` (part_003 lines
163-166): `rate.NewLimiter(rate.Limit(ratelimit), 1)`. -/
structure Limiter where
  ratePerSec : Int
  burst : Nat
deriving DecidableEq, Repr

/-- `var limiter *rate.Limiter; if ratelimit > 0 { limiter =
rate.NewLimiter(rate.Limit(ratelimit), 1) }`: a limiter with refill rate
`ratelimit` and burst 1 exactly when the configured rate is positive,
`nil` otherwise. -/
def mkLimiter (ratelimit : Int) : Option Limiter :=
  if 0 < ratelimit then some ⟨ratelimit, 1⟩ else none

/-- Concurrency defaulting in `MigrateStorage` (part_003 lines 87-90):
only an exactly-zero configured value is replaced by the CPU count. -/
def effectiveConcurrency (configured cpu : Int) : Int :=
  if configured = 0 then cpu else configured

/-- Number of workers launched by `for i := int64(0); i <
params.Concurrency; i++ { go ... }`. -/
def workerCount (n : Int) : Nat := n.toNat

/-- Capacity of `make(chan Object, params.Concurrency)`; `make` panics on
a negative size, modelled as `none`. -/
def queueCapacity (n : Int) : Option Nat :=
  if n < 0 then none else some n.toNat

/-- The package-level default of `var endpoint string` in lib/s3.go. -/
def defaultEndpoint : String := "s3.amazonaws.com"

/-- Connection parameters of `NewS3Connect` (lib/s3.go). -/
structure S3ConnParams where
  Key : String
  Secret : String
  Region : String
  Bucket : String
  Endpoint : String
deriving DecidableEq, Repr

/-- Observable state of a constructed `S3Client`: its bucket and the
endpoint `minio.New` was given. -/
structure S3ClientModel where
  bucket : String
  endpoint : String
deriving DecidableEq, Repr

/-- `NewS3Connect` (lib/s3.go lines 33-49) with the package-level
`endpoint` variable made explicit: the global is overwritten when
`params.Endpoint != ""` and the (possibly stale) global is what the
client connects to.  Returns the new global alongside the client. -/
def NewS3Connect (endpointVar : String) (params : S3ConnParams) :
    String × S3ClientModel :=
  let ep := if params.Endpoint ≠ "" then params.Endpoint else endpointVar
  (ep, { bucket := params.Bucket, endpoint := ep })

/-- One unrolling of the dry-run progress loop of `CopyObject`
(lib/s3.go line 112): `for i := int64(0); i <= objectInfo.Size; i +=
objectInfo.Size / 100`, so after `n` iterations the index is
`n * (size / 100)`. -/
def dryRunIter (size : Int) (n : Nat) : Int :=
  n * (size / 100)

/-- The dry-run progress loop terminates iff some iterate exceeds the
loop bound `size`. -/
def DryRunLoopTerminates (size : Int) : Prop :=
  ∃ n : Nat, size < dryRunIter size n

end S3Migrate

namespace S3Migrate

/-- C1 counterexample: a run whose only cursor item fails to decode ends
with counter sum 1 (the feeder's `errorCount++`) while zero records were
dequeued from the channel, so the sum does not equal the dequeued count. -/
theorem counters_sum_ne_dequeued_on_decode_failure :
    (processItems false false [] [] [CursorItem.decodeFail]
        ⟨0, 0, 0, 0⟩ 0).1.total = 1 ∧
    (processItems false false [] [] [CursorItem.decodeFail]
        ⟨0, 0, 0, 0⟩ 0).2 = 0 ∧
    (1 : Nat) ≠ 0 := by
  decide

/-- C1 (amended): at the end of every run the sum of the four counters
equals the number of records dequeued from the feeder's queue plus the
number of documents that failed to decode (each decode failure increments
the error counter in the feeder without enqueueing a record), for any
filter, store contents and per-record failure pattern. -/
theorem counters_sum_eq_dequeued_plus_decode_failures
    (limiterPresent dryRun : Bool) (src dst : List String)
    (items : List CursorItem) :
    (processItems limiterPresent dryRun src dst items ⟨0, 0, 0, 0⟩ 0).1.total
      = (processItems limiterPresent dryRun src dst items ⟨0, 0, 0, 0⟩ 0).2
        + countDecodeFails items := by
  rw [processItems_total, processItems_dequeued]
  simp [Stats.total]
  omega

/-- C2: the counters are updated with unsynchronized `count++` on shared
`int64`s, i.e. a read followed by a write of the read value plus one.
Under the interleaving read1, read2, write1, write2 two concurrent
finalizations leave the counter at 1 instead of 2: an increment is lost,
contradicting the claimed atomic/data-race-free updates (the sequential
interleaving does reach 2). -/
theorem lost_update_on_concurrent_increment :
    (runRace [RaceStep.read1, RaceStep.read2, RaceStep.write1,
        RaceStep.write2] ⟨0, 0, 0⟩).ctr = 1 ∧
    (runRace [RaceStep.read1, RaceStep.write1, RaceStep.read2,
        RaceStep.write2] ⟨0, 0, 0⟩).ctr = 2 ∧
    (1 : Nat) ≠ 2 := by
  decide

theorem processRecordNoLimit_already_present (dryRun : Bool)
    (src dst : List String) (r : RecordEnv)
    (hs : r.key ∈ src) (hd : r.key ∈ dst)
    (hsf : r.srcFault = false) (hdf : r.dstFault = false) :
    processRecordNoLimit dryRun src dst r
      = (.alreadyPresent, [.statSrc r.key, .statDst r.key]) := by
  simp [processRecordNoLimit, objectExist, hs, hd, hsf, hdf]

/-- C3: a record whose key exists in the source store and is already
present (by key) in the destination store is classified already-present,
and the only store calls issued for it are the two existence checks — no
content read, no write, no copy; nothing but key presence is consulted. -/
theorem already_present_no_transfer (limiterPresent dryRun : Bool)
    (src dst : List String) (r : RecordEnv)
    (hs : r.key ∈ src) (hd : r.key ∈ dst)
    (hl : r.limiterFails = false)
    (hsf : r.srcFault = false) (hdf : r.dstFault = false) :
    (processRecord limiterPresent dryRun src dst r).1
        = Outcome.alreadyPresent ∧
    (processRecord limiterPresent dryRun src dst r).2
      = (if limiterPresent then
           [Event.acquire, Event.statSrc r.key, Event.statDst r.key]
         else [Event.statSrc r.key, Event.statDst r.key]) ∧
    (processRecord limiterPresent dryRun src dst r).2.any Event.isMutation
        = false ∧
    (processRecord limiterPresent dryRun src dst r).2.any Event.isContentRead
        = false := by
  have e := processRecordNoLimit_already_present dryRun src dst r hs hd hsf hdf
  cases limiterPresent <;>
    simp [processRecord, hl, e, Event.isMutation, Event.isContentRead]

/-- C3 witness at a concrete record, limiter present. -/
theorem already_present_no_transfer_witness :
    (processRecord true false ["k"] ["k"]
        ⟨"k", false, false, false, false, false⟩).1
      = Outcome.alreadyPresent ∧
    (processRecord true false ["k"] ["k"]
        ⟨"k", false, false, false, false, false⟩).2.any Event.isMutation
      = false := by
  have h := already_present_no_transfer true false ["k"] ["k"]
    ⟨"k", false, false, false, false, false⟩
    (by decide) (by decide) rfl rfl rfl
  exact ⟨h.1, h.2.2.1⟩

/-- C4: a record whose key is absent from the source store never causes a
write or copy call against the destination, under every failure pattern;
and when the rate-limit wait and the source existence check themselves
succeed, it is classified skipped, with the source existence check as the
only store call. -/
theorem absent_from_source_skipped_no_write (limiterPresent dryRun : Bool)
    (src dst : List String) (r : RecordEnv) (hs : r.key ∉ src) :
    (processRecord limiterPresent dryRun src dst r).2.any Event.isMutation
        = false ∧
    (r.limiterFails = false → r.srcFault = false →
      (processRecord limiterPresent dryRun src dst r).1 = Outcome.skipped ∧
      (processRecord limiterPresent dryRun src dst r).2
        = (if limiterPresent then [Event.acquire, Event.statSrc r.key]
           else [Event.statSrc r.key])) := by
  cases hsf : r.srcFault with
  | false =>
    have e : processRecordNoLimit dryRun src dst r
        = (.skipped, [.statSrc r.key]) := by
      simp [processRecordNoLimit, objectExist, hsf, hs]
    cases limiterPresent <;> cases hlf : r.limiterFails <;>
      simp [processRecord, e, hlf, Event.isMutation, hsf]
  | true =>
    have e : processRecordNoLimit dryRun src dst r
        = (.errored, [.statSrc r.key]) := by
      simp [processRecordNoLimit, objectExist, hsf]
    cases limiterPresent <;> cases hlf : r.limiterFails <;>
      simp [processRecord, e, hlf, Event.isMutation, hsf]

/-- C4 witness at a concrete record with an empty source store. -/
theorem absent_from_source_skipped_no_write_witness :
    (processRecord true false [] []
        ⟨"k", false, false, false, false, false⟩).2.any Event.isMutation
      = false ∧
    (processRecord true false [] []
        ⟨"k", false, false, false, false, false⟩).1 = Outcome.skipped := by
  have h := absent_from_source_skipped_no_write true false [] []
    ⟨"k", false, false, false, false, false⟩ (by decide)
  exact ⟨h.1, (h.2 rfl rfl).1⟩

theorem processRecordNoLimit_dry_no_mutation (src dst : List String)
    (r : RecordEnv) :
    (processRecordNoLimit true src dst r).2.any Event.isMutation = false := by
  cases hsf : r.srcFault <;> cases hdf : r.dstFault <;>
    by_cases hs : r.key ∈ src <;> by_cases hd : r.key ∈ dst <;>
      simp [processRecordNoLimit, objectExist, hsf, hdf, hs, hd,
        Event.isMutation]

theorem processRecordNoLimit_dry_copied (src dst : List String)
    (r : RecordEnv) (hs : r.key ∈ src) (hd : r.key ∉ dst)
    (hsf : r.srcFault = false) (hdf : r.dstFault = false) :
    processRecordNoLimit true src dst r
      = (.copied, [.statSrc r.key, .statDst r.key]) := by
  simp [processRecordNoLimit, objectExist, hs, hd, hsf, hdf]

/-- C5: with dry-run enabled no record ever causes a write or copy call
against the destination store (the worker short-circuits with
`copiedCount++; continue` before `CopyObject` is reached), and every
record that passes the source and destination existence checks is
classified copied. -/
theorem dry_run_no_destination_mutation (limiterPresent : Bool)
    (src dst : List String) (r : RecordEnv) :
    (processRecord limiterPresent true src dst r).2.any Event.isMutation
        = false ∧
    (r.limiterFails = false → r.srcFault = false → r.dstFault = false →
      r.key ∈ src → r.key ∉ dst →
      (processRecord limiterPresent true src dst r).1 = Outcome.copied ∧
      (processRecord limiterPresent true src dst r).2
        = (if limiterPresent then
             [Event.acquire, Event.statSrc r.key, Event.statDst r.key]
           else [Event.statSrc r.key, Event.statDst r.key])) := by
  refine ⟨?_, ?_⟩
  · cases limiterPresent <;> cases hlf : r.limiterFails <;>
      simp [processRecord, hlf, processRecordNoLimit_dry_no_mutation src dst r,
        Event.isMutation]
  · intro h1 h2 h3 h4 h5
    have e2 := processRecordNoLimit_dry_copied src dst r h4 h5 h2 h3
    cases limiterPresent <;> simp [processRecord, h1, e2]

/-- C5 witness at a concrete eligible record. -/
theorem dry_run_no_destination_mutation_witness :
    (processRecord false true ["k"] []
        ⟨"k", false, false, false, false, false⟩).2.any Event.isMutation
      = false ∧
    (processRecord false true ["k"] []
        ⟨"k", false, false, false, false, false⟩).1 = Outcome.copied := by
  have h := dry_run_no_destination_mutation false ["k"] []
    ⟨"k", false, false, false, false, false⟩
  exact ⟨h.1, (h.2 rfl rfl rfl (by decide) (by decide)).1⟩

/-- C6 counterexample: with a successful count of 1 and a failing cursor
open, the run does surface a fatal error with no record processed, but
the two worker goroutines have already been started when it does — the
cursor is opened only after the worker-launch loop. -/
theorem cursor_open_failure_after_workers_started :
    (migrateStorageRun
        { countFails := false, countValue := 1, cursorOpenFails := true,
          concurrency := 2, limiterPresent := false, dryRun := false,
          srcStore := [], dstStore := [], items := [] }).1
      = RunResult.fatal ∧
    RunEvent.workerStarted ∈
      (migrateStorageRun
        { countFails := false, countValue := 1, cursorOpenFails := true,
          concurrency := 2, limiterPresent := false, dryRun := false,
          srcStore := [], dstStore := [], items := [] }).2 := by
  decide

/-- C6 (amended): a count failure aborts the run with the error surfaced
before any worker starts and before any record is processed; a
cursor-open failure also surfaces the error before any record is
dequeued, but only after the N workers have already been started. -/
theorem fatal_failures_surface_before_processing (inp : RunInputs) :
    (inp.countFails = true →
      migrateStorageRun inp = (RunResult.fatal, [])) ∧
    (inp.countFails = false → 0 < inp.countValue →
      inp.cursorOpenFails = true →
      (migrateStorageRun inp).1 = RunResult.fatal ∧
      (migrateStorageRun inp).2
        = List.replicate inp.concurrency RunEvent.workerStarted ∧
      RunEvent.recordDequeued ∉ (migrateStorageRun inp).2) := by
  constructor
  · intro h
    simp [migrateStorageRun, h]
  · intro h1 h2 h3
    have hle : ¬ inp.countValue ≤ 0 := by omega
    simp [migrateStorageRun, h1, hle, migrateObjectsRun, h3,
      List.mem_replicate]

/-- C6 witness: both fatal modes at concrete inputs. -/
theorem fatal_failures_surface_before_processing_witness :
    migrateStorageRun
        ⟨true, 0, false, 1, false, false, [], [], []⟩
      = (RunResult.fatal, []) ∧
    (migrateStorageRun
        ⟨false, 1, true, 1, false, false, [], [], []⟩).1
      = RunResult.fatal := by
  refine ⟨(fatal_failures_surface_before_processing _).1 rfl, ?_⟩
  exact ((fatal_failures_surface_before_processing
    ⟨false, 1, true, 1, false, false, [], [], []⟩).2 rfl (by decide) rfl).1

theorem countAcquires_processRecordNoLimit (dryRun : Bool)
    (src dst : List String) (r : RecordEnv) :
    countAcquires (processRecordNoLimit dryRun src dst r).2 = 0 := by
  cases hsf : r.srcFault <;> cases hdf : r.dstFault <;>
    cases hcs : r.copyStatFault <;> cases hcf : r.copyFault <;>
      by_cases hs : r.key ∈ src <;> by_cases hd : r.key ∈ dst <;>
        cases dryRun <;>
          simp [processRecordNoLimit, objectExist, copyObject,
            countAcquires, hsf, hdf, hcs, hcf, hs, hd]

theorem processRecordNoLimit_head (dryRun : Bool)
    (src dst : List String) (r : RecordEnv) :
    (processRecordNoLimit dryRun src dst r).2.head?
      = some (Event.statSrc r.key) := by
  cases hsf : r.srcFault <;> cases hdf : r.dstFault <;>
    cases hcs : r.copyStatFault <;> cases hcf : r.copyFault <;>
      by_cases hs : r.key ∈ src <;> by_cases hd : r.key ∈ dst <;>
        cases dryRun <;>
          simp [processRecordNoLimit, objectExist, copyObject,
            hsf, hdf, hcs, hcf, hs, hd]

theorem countAcquires_cons_acquire (t : List Event) :
    countAcquires (Event.acquire :: t) = countAcquires t + 1 := by
  simp [countAcquires, List.countP_cons]

/-- C7: when the configured rate R is positive a limiter with refill rate
R and burst capacity 1 is built, and each dequeued record acquires
exactly one token, as the first action, immediately before the source
existence check (the remaining trace starts with the source stat); a
cancelled wait finalizes the record as errored without store calls.  When
R is not positive no limiter is built and processing acquires nothing and
is the unchanged ungated body. -/
theorem rate_limiter_gate (R : Int) (dryRun : Bool)
    (src dst : List String) (r : RecordEnv) :
    (0 < R →
      mkLimiter R = some ⟨R, 1⟩ ∧
      (r.limiterFails = false →
        processRecord true dryRun src dst r
          = ((processRecordNoLimit dryRun src dst r).1,
             Event.acquire :: (processRecordNoLimit dryRun src dst r).2) ∧
        countAcquires (processRecord true dryRun src dst r).2 = 1 ∧
        (processRecordNoLimit dryRun src dst r).2.head?
          = some (Event.statSrc r.key)) ∧
      (r.limiterFails = true →
        processRecord true dryRun src dst r
          = (Outcome.errored, [Event.acquireFail]))) ∧
    (R ≤ 0 →
      mkLimiter R = none ∧
      processRecord false dryRun src dst r
        = processRecordNoLimit dryRun src dst r ∧
      countAcquires (processRecord false dryRun src dst r).2 = 0) := by
  constructor
  · intro hR
    refine ⟨by simp [mkLimiter, hR], ?_, ?_⟩
    · intro hl
      have e : processRecord true dryRun src dst r
          = ((processRecordNoLimit dryRun src dst r).1,
             Event.acquire :: (processRecordNoLimit dryRun src dst r).2) := by
        simp [processRecord, hl]
      refine ⟨e, ?_, processRecordNoLimit_head dryRun src dst r⟩
      rw [e]
      show countAcquires
        (Event.acquire :: (processRecordNoLimit dryRun src dst r).2) = 1
      rw [countAcquires_cons_acquire,
        countAcquires_processRecordNoLimit]
    · intro hl
      simp [processRecord, hl]
  · intro hR
    refine ⟨?_, by simp [processRecord], ?_⟩
    · simp [mkLimiter, show ¬ (0 < R) from by omega]
    · simp [processRecord, countAcquires_processRecordNoLimit dryRun src dst r]

/-- C7 witness: limiter construction at R = 5 and R = 0, and one
acquisition on a concrete record. -/
theorem rate_limiter_gate_witness :
    mkLimiter 5 = some ⟨5, 1⟩ ∧ mkLimiter 0 = none ∧
    countAcquires (processRecord true false ["k"] ["k"]
        ⟨"k", false, false, false, false, false⟩).2 = 1 := by
  refine ⟨((rate_limiter_gate 5 false [] []
      ⟨"k", false, false, false, false, false⟩).1 (by decide)).1, ?_, ?_⟩
  · exact ((rate_limiter_gate 0 false [] []
      ⟨"k", false, false, false, false, false⟩).2 (by decide)).1
  · exact (((rate_limiter_gate 5 false ["k"] ["k"]
      ⟨"k", false, false, false, false, false⟩).1 (by decide)).2.1 rfl).2.1

/-- C8 counterexample: a configured concurrency of -1 is not replaced by
the CPU count (only an exact zero is), so the effective level is -1 — not
at least 1 — the worker-launch loop starts zero workers, and
`make(chan Object, -1)` fails rather than building a queue of that
size. -/
theorem negative_concurrency_not_defaulted :
    effectiveConcurrency (-1) 8 = -1 ∧
    ¬ (1 ≤ effectiveConcurrency (-1) 8) ∧
    workerCount (effectiveConcurrency (-1) 8) = 0 ∧
    queueCapacity (effectiveConcurrency (-1) 8) = none := by
  decide

/-- C8 (amended): for every run whose configured concurrency is
non-negative, the effective level is at least 1 — an unset/zero value
defaults to the host CPU count, any other value is used as given — and
the worker pool and the bounded queue are both sized to exactly that
level. -/
theorem concurrency_default_and_sizing (configured cpu : Int)
    (hc : 0 ≤ configured) (hcpu : 1 ≤ cpu) :
    1 ≤ effectiveConcurrency configured cpu ∧
    (configured = 0 → effectiveConcurrency configured cpu = cpu) ∧
    (configured ≠ 0 → effectiveConcurrency configured cpu = configured) ∧
    workerCount (effectiveConcurrency configured cpu)
      = (effectiveConcurrency configured cpu).toNat ∧
    queueCapacity (effectiveConcurrency configured cpu)
      = some (effectiveConcurrency configured cpu).toNat := by
  have he : 1 ≤ effectiveConcurrency configured cpu := by
    unfold effectiveConcurrency
    split <;> omega
  refine ⟨he, ?_, ?_, rfl, ?_⟩
  · intro h
    simp [effectiveConcurrency, h]
  · intro h
    simp [effectiveConcurrency, h]
  · unfold queueCapacity
    rw [if_neg (by omega)]

/-- C8 witness: zero defaults to the CPU count and the sizes follow. -/
theorem concurrency_default_and_sizing_witness :
    1 ≤ effectiveConcurrency 0 8 ∧ effectiveConcurrency 0 8 = 8 ∧
    queueCapacity (effectiveConcurrency 0 8) = some 8 := by
  have h := concurrency_default_and_sizing 0 8 (by decide) (by decide)
  refine ⟨h.1, h.2.1 rfl, ?_⟩
  have h5 := h.2.2.2.2
  simpa [h.2.1 rfl] using h5

/-- C9: `NewS3Connect` reads and writes the package-level `endpoint`
variable — after a first call passing a non-empty endpoint, a second call
passing an empty endpoint connects its client to the first call's
endpoint (not the default "s3.amazonaws.com" unless the first call set
exactly that), so a destination configured without an endpoint silently
inherits the source's endpoint. -/
theorem endpoint_global_inherited (p1 p2 : S3ConnParams)
    (h1 : p1.Endpoint ≠ "") (h2 : p2.Endpoint = "") :
    ((NewS3Connect (NewS3Connect defaultEndpoint p1).1 p2).2).endpoint
      = p1.Endpoint ∧
    (p1.Endpoint ≠ defaultEndpoint →
      ((NewS3Connect (NewS3Connect defaultEndpoint p1).1 p2).2).endpoint
        ≠ defaultEndpoint) := by
  constructor
  · simp [NewS3Connect, h1, h2]
  · intro hne
    simp [NewS3Connect, h1, h2, hne]

/-- C9 witness: a source configured for "minio.local" followed by a
destination with an empty endpoint yields a destination client on
"minio.local". -/
theorem endpoint_global_inherited_witness :
    ((NewS3Connect
        (NewS3Connect defaultEndpoint
          ⟨"", "", "", "b1", "minio.local"⟩).1
        ⟨"", "", "", "b2", ""⟩).2).endpoint = "minio.local" ∧
    "minio.local" ≠ defaultEndpoint := by
  refine ⟨(endpoint_global_inherited ⟨"", "", "", "b1", "minio.local"⟩
    ⟨"", "", "", "b2", ""⟩ (by decide) rfl).1, by decide⟩

/-- C10: in the dry-run branch of `CopyObject`, for an object whose stat
size is less than 100 bytes the loop increment `size / 100` is zero and
no iterate ever exceeds the bound, so the simulated-progress loop never
terminates; for a size of at least 100 bytes some iterate exceeds the
bound and the loop terminates. -/
theorem dry_run_progress_loop (size : Int) (hsize : 0 ≤ size) :
    (size < 100 → size / 100 = 0 ∧ ¬ DryRunLoopTerminates size) ∧
    (100 ≤ size → DryRunLoopTerminates size) := by
  constructor
  · intro h
    have hq : size / 100 = 0 := by omega
    refine ⟨hq, ?_⟩
    rintro ⟨n, hn⟩
    simp [dryRunIter, hq] at hn
    omega
  · intro h
    have ht : ((size.toNat : Int)) = size := Int.toNat_of_nonneg hsize
    refine ⟨size.toNat + 1, ?_⟩
    have hq : 1 ≤ size / 100 := by omega
    have h2 : (size + 1) * 1 ≤ (size + 1) * (size / 100) :=
      mul_le_mul_of_nonneg_left hq (by omega)
    unfold dryRunIter
    push_cast [ht]
    nlinarith [h2]

/-- C10 witness: a 5-byte object never finishes the simulated loop, a
150-byte object does. -/
theorem dry_run_progress_loop_witness :
    ((5 : Int) / 100 = 0 ∧ ¬ DryRunLoopTerminates 5) ∧
    DryRunLoopTerminates 150 := by
  exact ⟨(dry_run_progress_loop 5 (by decide)).1 (by decide),
         (dry_run_progress_loop 150 (by decide)).2 (by decide)⟩

end S3Migrate
